import Mathlib

/-!
Verification development for the user & credential lifecycle manager of a
Firebase-backed Python API (`functions/` package).  The Python sources are
shallowly embedded: pure helpers become Lean functions, the Firestore
collections become association lists threaded through the service
operations, and the external collaborators (identity provider, blob store,
mail sender) become explicit oracle parameters recording their outcomes.

Modelling conventions, used throughout:
* Python `str` methods (`lower`, `isupper`, `title`, `strip`, the character
  class tests of `re`) are modelled on the ASCII range, which is the range
  the validators' character classes accept.
* A `datetime` instant is modelled as an `Int`; `string.punctuation` and the
  regex character classes are modelled by their ASCII code ranges.
* Python `None` is `Option.none`; a dictionary is an association list.
-/

namespace FirebasePyApi

/-! ### ASCII character helpers (models of Python `str`/`re` character classes) -/

/-- Model of `str.lower` on one character: ASCII `A`-`Z` (65-90) maps to
`a`-`z`, everything else is unchanged. -/
def pyLowerChar (c : Char) : Char :=
  if 65 ≤ c.toNat ∧ c.toNat ≤ 90 then Char.ofNat (c.toNat + 32) else c

/-- Model of `str.lower` on a whole string. -/
def pyLower (s : String) : String :=
  String.mk (s.data.map pyLowerChar)

/-- `[A-Z]` / `c.isupper()`. -/
def isUpperA (c : Char) : Bool := decide (65 ≤ c.toNat ∧ c.toNat ≤ 90)

/-- `[a-z]` / `c.islower()`. -/
def isLowerA (c : Char) : Bool := decide (97 ≤ c.toNat ∧ c.toNat ≤ 122)

/-- `\d` / `c.isdigit()`. -/
def isDigitA (c : Char) : Bool := decide (48 ≤ c.toNat ∧ c.toNat ≤ 57)

/-- `[a-zA-Z]`. -/
def isAlphaA (c : Char) : Bool := isUpperA c || isLowerA c

/-- `[a-zA-Z0-9]`. -/
def isAlnumA (c : Char) : Bool := isAlphaA c || isDigitA c

/-- Membership in Python's `string.punctuation`, which is exactly the four
ASCII code ranges 33-47, 58-64, 91-96, 123-126. -/
def isPunctA (c : Char) : Bool :=
  decide ((33 ≤ c.toNat ∧ c.toNat ≤ 47) ∨ (58 ≤ c.toNat ∧ c.toNat ≤ 64) ∨
    (91 ≤ c.toNat ∧ c.toNat ≤ 96) ∨ (123 ≤ c.toNat ∧ c.toNat ≤ 126))

/-- The fixed special-character class of `utils/auth.py`'s regex
`[!@#$%^&*(),.?":{}|<>]`, given by the ASCII codes of its 20 characters. -/
def fixedSpecialCodes : List Nat :=
  [33, 64, 35, 36, 37, 94, 38, 42, 40, 41, 44, 46, 63, 34, 58, 123, 125, 124, 60, 62]

/-- Membership in the fixed special-character class of `utils/auth.py`. -/
def isFixedSpecial (c : Char) : Bool := fixedSpecialCodes.contains c.toNat

/-- Python `\s` (ASCII part): space, tab, newline, carriage return,
vertical tab, form feed.  Also the character set removed by `str.strip()`. -/
def isWsA (c : Char) : Bool :=
  decide (c.toNat = 32 ∨ c.toNat = 9 ∨ c.toNat = 10 ∨ c.toNat = 13 ∨
    c.toNat = 11 ∨ c.toNat = 12)

/-! ### `utils/validators.py`: `validate_email`

The regex
`^[a-zA-Z0-9](?:[a-zA-Z0-9._%+-]*[a-zA-Z0-9])?@(?:[a-zA-Z0-9](?:[a-zA-Z0-9-]*[a-zA-Z0-9])?\.)+[a-zA-Z]{2,}$`
is embedded as a whole-string checker on its language: since no character
class of the pattern contains `@`, a matching string is uniquely
`local@domain`; since no label or TLD contains `.`, the domain decomposes
uniquely at the dots.  `$` also matches just before one trailing newline,
which `pyDollarMatch` reproduces. -/

/-- Characters allowed anywhere in the local part: `[a-zA-Z0-9._%+-]`
(codes 46, 95, 37, 43, 45 for `.` `_` `%` `+` `-`). -/
def isLocalChar (c : Char) : Bool :=
  isAlnumA c || decide (c.toNat = 46 ∨ c.toNat = 95 ∨ c.toNat = 37 ∨
    c.toNat = 43 ∨ c.toNat = 45)

/-- Characters allowed inside a domain label: `[a-zA-Z0-9-]` (45 is `-`). -/
def isLabelChar (c : Char) : Bool := isAlnumA c || decide (c.toNat = 45)

/-- Split a character list at every character with the given ASCII code,
dropping the separators (the separators never occur inside the parts of the
email pattern, so this decomposition is exact). -/
def splitOnCode (sep : Nat) : List Char → List (List Char)
  | [] => [[]]
  | c :: rest =>
    match splitOnCode sep rest with
    | [] => [[]]
    | h :: t => if c.toNat = sep then [] :: h :: t else (c :: h) :: t

/-- `[a-zA-Z0-9](?:[a-zA-Z0-9._%+-]*[a-zA-Z0-9])?`: nonempty, starts and
ends with an alphanumeric, every character from the local-part class. -/
def localOk (l : List Char) : Bool :=
  (match l.head? with | some c => isAlnumA c | none => false) &&
  l.all isLocalChar &&
  (match l.getLast? with | some c => isAlnumA c | none => false)

/-- `[a-zA-Z0-9](?:[a-zA-Z0-9-]*[a-zA-Z0-9])?`: a domain label. -/
def labelOk (l : List Char) : Bool :=
  (match l.head? with | some c => isAlnumA c | none => false) &&
  l.all isLabelChar &&
  (match l.getLast? with | some c => isAlnumA c | none => false)

/-- `[a-zA-Z]{2,}`: the final TLD segment. -/
def tldOk (l : List Char) : Bool := decide (2 ≤ l.length) && l.all isAlphaA

/-- `(?:label\.)+[a-zA-Z]{2,}`: at least one dot-terminated label followed
by the TLD. -/
def domainOk (d : List Char) : Bool :=
  let parts := splitOnCode 46 d
  decide (2 ≤ parts.length) &&
  (match parts.getLast? with | some t => tldOk t | none => false) &&
  parts.dropLast.all labelOk

/-- The full email pattern without the `$`-newline allowance. -/
def emailCore (l : List Char) : Bool :=
  match splitOnCode 64 l with
  | [lp, domain] => localOk lp && domainOk domain
  | _ => false

/-- Python `re.match` of an anchored `^...$` pattern: the pattern must
consume the whole string, except that `$` may also match immediately before
a single trailing newline. -/
def pyDollarMatch (core : List Char → Bool) (l : List Char) : Bool :=
  core l ||
  (match l.getLast? with
   | some c => decide (c.toNat = 10) && core l.dropLast
   | none => false)

/-- `validate_email` of `utils/validators.py`. -/
def validate_email (s : String) : Bool :=
  if s = "" then false else pyDollarMatch emailCore s.data

/-! ### `utils/validators.py`: `validate_phone_number`

Regex `^(\+\d{1,3}\s?)?(?:\(\d{3}\)|\d{3})[\s.-]?\d{3}[\s.-]?\d{4}$`,
embedded as a checker that enumerates the finitely many alternatives. -/

/-- `[\s.-]` (46 is `.`, 45 is `-`). -/
def isSepA (c : Char) : Bool := isWsA c || decide (c.toNat = 46 ∨ c.toNat = 45)

/-- Consume exactly `n` digits, returning the remaining suffix. -/
def takeDigits : Nat → List Char → Option (List Char)
  | 0, l => some l
  | _ + 1, [] => none
  | n + 1, c :: rest => if isDigitA c then takeDigits n rest else none

/-- Alternatives for an optional single separator `[\s.-]?`. -/
def sepAlts (l : List Char) : List (List Char) :=
  (match l with
   | c :: rest => if isSepA c then [rest] else []
   | [] => []) ++ [l]

/-- Alternatives for the optional country-code group `(\+\d{1,3}\s?)?`
(43 is `+`). -/
def plusAlts (l : List Char) : List (List Char) :=
  [l] ++
  (match l with
   | c :: rest =>
     if c.toNat = 43 then
       (([1, 2, 3] : List Nat).filterMap (fun n => takeDigits n rest)).flatMap
         (fun r =>
           (match r with
            | c2 :: r2 => if isWsA c2 then [r2] else []
            | [] => []) ++ [r])
     else []
   | [] => [])

/-- Alternatives for the area code `(?:\(\d{3}\)|\d{3})` (40/41 are
parentheses). -/
def areaAlts (l : List Char) : List (List Char) :=
  (match l with
   | c :: rest =>
     if c.toNat = 40 then
       match takeDigits 3 rest with
       | some (c2 :: rest2) => if c2.toNat = 41 then [rest2] else []
       | _ => []
     else []
   | [] => []) ++
  (match takeDigits 3 l with | some r => [r] | none => [])

/-- `[\s.-]?\d{3}[\s.-]?\d{4}` against the end of the string. -/
def phoneEnd (l : List Char) : Bool :=
  (sepAlts l).any fun l2 =>
    match takeDigits 3 l2 with
    | some l3 => (sepAlts l3).any fun l4 => takeDigits 4 l4 == some []
    | none => false

/-- The whole phone pattern without the `$`-newline allowance. -/
def phoneCore (l : List Char) : Bool :=
  (plusAlts l).any fun l1 => (areaAlts l1).any phoneEnd

/-- `validate_phone_number` of `utils/validators.py`. -/
def validate_phone_number (s : String) : Bool :=
  if s = "" then false else pyDollarMatch phoneCore s.data

/-! ### Password strength validators (claims C5, C8, C10) -/

/-- `PasswordService.validate_password_strength` (`password_service.py`):
returns `(is_valid, error_message)`, reporting the first failed check.
`min_password_length` is 8; the special-character class is
`string.punctuation`. -/
def validate_password_strength (password : String) : Bool × Option String :=
  if password.length < 8 then
    (false, some "Password must be at least 8 characters long.")
  else if !(password.data.any isUpperA) then
    (false, some "Password must contain at least one uppercase letter.")
  else if !(password.data.any isLowerA) then
    (false, some "Password must contain at least one lowercase letter.")
  else if !(password.data.any isDigitA) then
    (false, some "Password must contain at least one number.")
  else if !(password.data.any isPunctA) then
    (false, some "Password must contain at least one special character.")
  else
    (true, none)

/-- Result dictionary of `utils/auth.py`'s `validate_password`. -/
structure VPResult where
  valid : Bool
  errors : List String
deriving Repr, DecidableEq

/-- `validate_password` of `utils/auth.py`: runs all five checks and
accumulates every failure; the special-character class is the fixed set
`[!@#$%^&*(),.?":{}|<>]`, not all of `string.punctuation`. -/
def validate_password (password : String) : VPResult :=
  let startR : VPResult := { valid := true, errors := [] }
  let r1 := if password.length < 8 then
      { valid := false,
        errors := startR.errors ++ ["Password must be at least 8 characters long"] }
    else startR
  let r2 := if !(password.data.any isUpperA) then
      { valid := false,
        errors := r1.errors ++ ["Password must contain at least one uppercase letter"] }
    else r1
  let r3 := if !(password.data.any isLowerA) then
      { valid := false,
        errors := r2.errors ++ ["Password must contain at least one lowercase letter"] }
    else r2
  let r4 := if !(password.data.any isDigitA) then
      { valid := false,
        errors := r3.errors ++ ["Password must contain at least one digit"] }
    else r3
  if !(password.data.any isFixedSpecial) then
    { valid := false,
      errors := r4.errors ++ ["Password must contain at least one special character"] }
  else r4

/-! ### Case-insensitivity of `validate_email` under `str.lower` -/

theorem pyLowerChar_toNat (c : Char) :
    (pyLowerChar c).toNat =
      if 65 ≤ c.toNat ∧ c.toNat ≤ 90 then c.toNat + 32 else c.toNat := by
  unfold pyLowerChar
  split
  · rename_i h
    have hv : (c.val.toBitVec.toNat + 32).isValidChar := Or.inl (by
      have := h.2
      simp only [Char.toNat, UInt32.toNat] at this
      omega)
    simp only [Char.ofNat, dif_pos hv, Char.ofNatAux, Char.toNat, UInt32.toNat, BitVec.toNat_ofNatLt]
  · rfl

theorem lower_eq_code (c : Char) (k : Nat) (hk : k < 65) :
    ((pyLowerChar c).toNat = k) ↔ c.toNat = k := by
  simp only [pyLowerChar_toNat]
  split_ifs <;> omega

theorem isAlnumA_lower (c : Char) : isAlnumA (pyLowerChar c) = isAlnumA c := by
  simp only [isAlnumA, isAlphaA, isUpperA, isLowerA, isDigitA, pyLowerChar_toNat]
  rw [Bool.eq_iff_iff]
  simp only [Bool.or_eq_true, decide_eq_true_eq]
  split_ifs <;> omega

theorem isAlphaA_lower (c : Char) : isAlphaA (pyLowerChar c) = isAlphaA c := by
  simp only [isAlphaA, isUpperA, isLowerA, pyLowerChar_toNat]
  rw [Bool.eq_iff_iff]
  simp only [Bool.or_eq_true, decide_eq_true_eq]
  split_ifs <;> omega

theorem isLocalChar_lower (c : Char) : isLocalChar (pyLowerChar c) = isLocalChar c := by
  simp only [isLocalChar, isAlnumA, isAlphaA, isUpperA, isLowerA, isDigitA, pyLowerChar_toNat]
  rw [Bool.eq_iff_iff]
  simp only [Bool.or_eq_true, decide_eq_true_eq]
  split_ifs <;> omega

theorem isLabelChar_lower (c : Char) : isLabelChar (pyLowerChar c) = isLabelChar c := by
  simp only [isLabelChar, isAlnumA, isAlphaA, isUpperA, isLowerA, isDigitA, pyLowerChar_toNat]
  rw [Bool.eq_iff_iff]
  simp only [Bool.or_eq_true, decide_eq_true_eq]
  split_ifs <;> omega

theorem splitOnCode_ne_nil (sep : Nat) (l : List Char) : splitOnCode sep l ≠ [] := by
  induction l with
  | nil => simp [splitOnCode]
  | cons c rest ih =>
    simp only [splitOnCode]
    cases hrec : splitOnCode sep rest with
    | nil => exact absurd hrec ih
    | cons h t => simp only [hrec]; split <;> simp

theorem splitOnCode_map_lower (sep : Nat) (hsep : sep < 65) (l : List Char) :
    splitOnCode sep (l.map pyLowerChar) = (splitOnCode sep l).map (List.map pyLowerChar) := by
  induction l with
  | nil => rfl
  | cons c rest ih =>
    simp only [List.map_cons, splitOnCode, ih]
    cases hrec : splitOnCode sep rest with
    | nil => exact absurd hrec (splitOnCode_ne_nil sep rest)
    | cons h t =>
      simp only [hrec, List.map_cons]
      by_cases hc : c.toNat = sep
      · rw [if_pos ((lower_eq_code c sep hsep).mpr hc), if_pos hc]
        simp
      · rw [if_neg (fun hh => hc ((lower_eq_code c sep hsep).mp hh)), if_neg hc]
        simp

theorem localOk_lower (l : List Char) : localOk (l.map pyLowerChar) = localOk l := by
  have h1 : isLocalChar ∘ pyLowerChar = isLocalChar := funext isLocalChar_lower
  simp only [localOk, List.all_map, List.head?_map, List.getLast?_map, h1]
  cases l.head? <;> cases l.getLast? <;> simp [isAlnumA_lower]

theorem labelOk_lower (l : List Char) : labelOk (l.map pyLowerChar) = labelOk l := by
  have h1 : isLabelChar ∘ pyLowerChar = isLabelChar := funext isLabelChar_lower
  simp only [labelOk, List.all_map, List.head?_map, List.getLast?_map, h1]
  cases l.head? <;> cases l.getLast? <;> simp [isAlnumA_lower]

theorem tldOk_lower (l : List Char) : tldOk (l.map pyLowerChar) = tldOk l := by
  have h1 : isAlphaA ∘ pyLowerChar = isAlphaA := funext isAlphaA_lower
  simp only [tldOk, List.length_map, List.all_map, h1]

theorem domainOk_lower (d : List Char) : domainOk (d.map pyLowerChar) = domainOk d := by
  have h1 : labelOk ∘ List.map pyLowerChar = labelOk := funext labelOk_lower
  simp only [domainOk, splitOnCode_map_lower 46 (by omega), List.length_map,
    List.getLast?_map, ← List.map_dropLast, List.all_map, h1]
  rcases hlast : (splitOnCode 46 d).getLast? with _ | t <;> simp [hlast, tldOk_lower]

theorem emailCore_lower (l : List Char) : emailCore (l.map pyLowerChar) = emailCore l := by
  simp only [emailCore, splitOnCode_map_lower 64 (by omega)]
  cases h : splitOnCode 64 l with
  | nil => rfl
  | cons a t =>
    cases t with
    | nil => rfl
    | cons b t2 =>
      cases t2 with
      | nil => simp [localOk_lower, domainOk_lower]
      | cons x t3 => rfl

theorem pyLower_data (s : String) : (pyLower s).data = s.data.map pyLowerChar := rfl

theorem pyLower_eq_empty_iff (s : String) : pyLower s = "" ↔ s = "" := by
  constructor
  · intro h
    have : (pyLower s).data = [] := by rw [h]
    rw [pyLower_data] at this
    cases s with
    | mk d => cases d <;> simp_all
  · intro h; subst h; rfl

theorem validate_email_lower (s : String) : validate_email (pyLower s) = validate_email s := by
  unfold validate_email
  by_cases hs : s = ""
  · subst hs; rfl
  · rw [if_neg (fun h => hs ((pyLower_eq_empty_iff s).mp h)), if_neg hs]
    unfold pyDollarMatch
    rw [pyLower_data, emailCore_lower, List.getLast?_map, ← List.map_dropLast, emailCore_lower]
    cases s.data.getLast? with
    | none => rfl
    | some c =>
      simp only [Option.map_some']
      congr 1
      rw [Bool.eq_iff_iff]
      simp only [Bool.and_eq_true, decide_eq_true_eq]
      rw [lower_eq_code c 10 (by omega)]

/-! ### Python `str.isupper`, `str.title`, `str.strip` (ASCII models) -/

/-- `str.isupper()`: at least one cased character and no lowercase one
(cased = ASCII letter in this model). -/
def pyIsUpper (s : String) : Bool :=
  s.data.any isAlphaA && !(s.data.any isLowerA)

/-- One step of `str.title`: uppercase a letter that starts a run of
letters, lowercase the rest (26 is the distance only in the sign; 32 is the
ASCII case offset). -/
def pyTitleChar (prevAlpha : Bool) (c : Char) : Char :=
  if isAlphaA c then
    if prevAlpha then
      (if 65 ≤ c.toNat ∧ c.toNat ≤ 90 then Char.ofNat (c.toNat + 32) else c)
    else
      (if 97 ≤ c.toNat ∧ c.toNat ≤ 122 then Char.ofNat (c.toNat - 32) else c)
  else c

/-- `str.title()` on a string. -/
def pyTitle (s : String) : String :=
  String.mk ((s.data.foldl
    (fun acc c => (acc.1 ++ [pyTitleChar acc.2 c], isAlphaA c))
    (([] : List Char), false)).1)

/-- `str.strip()`: remove leading and trailing whitespace. -/
def pyStrip (l : List Char) : List Char :=
  ((l.dropWhile isWsA).reverse.dropWhile isWsA).reverse

/-! ### `utils/validators.py`: `sanitize_input`

The four `re.sub` passes are embedded as leftmost-scanning rewriters.  Each
lazy group `.*?` matches the shortest span, so a match always extends to
the first occurrence of the closing delimiter; without `re.DOTALL` the span
must not contain a newline. -/

/-- Case-insensitive character comparison (for `re.IGNORECASE`). -/
def lcEq (a b : Char) : Bool := pyLowerChar a == pyLowerChar b

/-- Does `l` start with `pat`, case-insensitively? -/
def startsWithCi : List Char → List Char → Bool
  | [], _ => true
  | _ :: _, [] => false
  | p :: ps, c :: cs => lcEq p c && startsWithCi ps cs

/-- Does `l` start with `pat` (case-sensitive)? -/
def startsWithCs : List Char → List Char → Bool
  | [], _ => true
  | _ :: _, [] => false
  | p :: ps, c :: cs => (p == c) && startsWithCs ps cs

/-- Index of the first case-insensitive occurrence of `pat` in `l`. -/
def findSubCi (pat : List Char) : List Char → Option Nat
  | [] => if pat.isEmpty then some 0 else none
  | c :: rest =>
    if startsWithCi pat (c :: rest) then some 0
    else (findSubCi pat rest).map (· + 1)

/-- Index of the first case-sensitive occurrence of `pat` in `l`. -/
def findSubCs (pat : List Char) : List Char → Option Nat
  | [] => if pat.isEmpty then some 0 else none
  | c :: rest =>
    if startsWithCs pat (c :: rest) then some 0
    else (findSubCs pat rest).map (· + 1)

/-- Index of the first character with the given ASCII code. -/
def findCode (code : Nat) : List Char → Option Nat
  | [] => none
  | c :: rest =>
    if c.toNat = code then some 0 else (findCode code rest).map (· + 1)

/-- `re.sub(r'<script.*?>.*?</script>', '', text, re.IGNORECASE | re.DOTALL)`:
with `DOTALL` the lazy spans run to the first `>` and then the first
`</script>`. -/
def subScriptAux : Nat → List Char → List Char
  | 0, l => l
  | _ + 1, [] => []
  | fuel + 1, c :: rest =>
    let l := c :: rest
    match
      (if startsWithCi ("<script".data) l then
        match findCode 62 (l.drop 7) with
        | some j =>
          match findSubCi ("</script>".data) ((l.drop 7).drop (j + 1)) with
          | some k => some (((l.drop 7).drop (j + 1)).drop (k + 9))
          | none => none
        | none => none
      else none) with
    | some suffix => subScriptAux fuel suffix
    | none => c :: subScriptAux fuel rest

/-- The five tags of the `safe_tags` allow list. -/
def safeTags : List (List Char) :=
  ["b".data, "i".data, "u".data, "em".data, "strong".data]

/-- The literal `<tag>` (60/62 are the angle brackets). -/
def openTagPat (tag : List Char) : List Char :=
  Char.ofNat 60 :: tag ++ [Char.ofNat 62]

/-- The literal `</tag>` (47 is the slash). -/
def closeTagPat (tag : List Char) : List Char :=
  Char.ofNat 60 :: Char.ofNat 47 :: tag ++ [Char.ofNat 62]

/-- The marker written in place of a safe opening tag. -/
def markerStart (tag : List Char) : List Char :=
  ("__SAFE_TAG_".data) ++ tag ++ ("_START__".data)

/-- The marker written in place of a safe closing tag. -/
def markerEnd (tag : List Char) : List Char :=
  ("__SAFE_TAG_".data) ++ tag ++ ("_END__".data)

/-- `re.sub(f'<{tag}>(.*?)</{tag}>', markers, text, re.IGNORECASE)`:
no `DOTALL`, so the lazily captured content may not contain a newline. -/
def subSafeTagAux (tag : List Char) : Nat → List Char → List Char
  | 0, l => l
  | _ + 1, [] => []
  | fuel + 1, c :: rest =>
    let l := c :: rest
    if startsWithCi (openTagPat tag) l then
      let after := l.drop (openTagPat tag).length
      match findSubCi (closeTagPat tag) after with
      | some k =>
        if (after.take k).any (fun ch => ch.toNat = 10) then
          c :: subSafeTagAux tag fuel rest
        else
          markerStart tag ++ after.take k ++ markerEnd tag ++
            subSafeTagAux tag fuel (after.drop (k + (closeTagPat tag).length))
      | none => c :: subSafeTagAux tag fuel rest
    else c :: subSafeTagAux tag fuel rest

/-- `re.sub(r'<.*?>', '', text)`: remove every newline-free `<...>` span. -/
def stripTagsAux : Nat → List Char → List Char
  | 0, l => l
  | _ + 1, [] => []
  | fuel + 1, c :: rest =>
    if c.toNat = 60 then
      match findCode 62 rest with
      | some j =>
        if (rest.take j).any (fun ch => ch.toNat = 10) then
          c :: stripTagsAux fuel rest
        else stripTagsAux fuel (rest.drop (j + 1))
      | none => c :: stripTagsAux fuel rest
    else c :: stripTagsAux fuel rest

/-- `re.sub(f'__SAFE_TAG_{tag}_START__(.*?)__SAFE_TAG_{tag}_END__',
f'<{tag}>\\1</{tag}>', text)` (case-sensitive, no `DOTALL`). -/
def restoreTagAux (tag : List Char) : Nat → List Char → List Char
  | 0, l => l
  | _ + 1, [] => []
  | fuel + 1, c :: rest =>
    let l := c :: rest
    if startsWithCs (markerStart tag) l then
      let after := l.drop (markerStart tag).length
      match findSubCs (markerEnd tag) after with
      | some k =>
        if (after.take k).any (fun ch => ch.toNat = 10) then
          c :: restoreTagAux tag fuel rest
        else
          openTagPat tag ++ after.take k ++ closeTagPat tag ++
            restoreTagAux tag fuel (after.drop (k + (markerEnd tag).length))
      | none => c :: restoreTagAux tag fuel rest
    else c :: restoreTagAux tag fuel rest

/-- `sanitize_input` of `utils/validators.py` on a (non-`None`) string. -/
def sanitize_input_str (s : String) : String :=
  if s = "" then ""
  else
    let l0 := s.data
    let l1 := subScriptAux (l0.length + 1) l0
    let l2 := safeTags.foldl (fun acc tag => subSafeTagAux tag (acc.length + 1) acc) l1
    let l3 := stripTagsAux (l2.length + 1) l2
    let l4 := safeTags.foldl (fun acc tag => restoreTagAux tag (acc.length + 1) acc) l3
    let l5 := if 5000 < l4.length then l4.take 5000 else l4
    String.mk (pyStrip l5)

/-- `sanitize_input`: `None` maps to `None`. -/
def sanitize_input : Option String → Option String
  | none => none
  | some s => some (sanitize_input_str s)

/-! ### Firestore document values (`models/user.py`)

A document is an association list of field values.  Python's dynamic values
are partitioned into constructors; two points of the partition model the
standard library's `datetime` serialization, which the repository code uses
but does not define:
* `Val.dt t` is a timezone-aware `datetime` object for the instant `t`;
* `Val.isoDT t` is the string `isoformat()` of that `datetime` — since
  `isoformat` is injective and `fromisoformat` inverts it for aware
  datetimes, an ISO string is represented by the instant it denotes, and
  `Val.s` carries exactly the strings that are not ISO datetime strings
  (so `fromisoformat` fails on them and `from_dict` keeps them as-is).
`Val.num` is a Python `int` or `float` (a numeric timestamp where a date is
expected); `Val.vnone` is Python `None`. -/

/-- A non-nested dictionary entry value (inside `location`). -/
inductive LeafVal where
  | s (v : String)
  | num (n : Int)
  | b (v : Bool)
  | vnone
deriving Repr, DecidableEq

/-- A value one level inside a stored dictionary: a leaf or a dictionary of
leaves (two levels is the nesting depth the system's documents use). -/
inductive SubVal where
  | leaf (v : LeafVal)
  | d (fields : List (String × LeafVal))
deriving Repr, DecidableEq

inductive Val where
  | s (v : String)
  | b (v : Bool)
  | num (n : Int)
  | dt (t : Int)
  | isoDT (t : Int)
  | vdict (fields : List (String × SubVal))
  | vnone
deriving Repr, DecidableEq

/-- A Firestore document / Python dict. -/
abbrev Doc := List (String × Val)

/-- Python truthiness of a value. -/
def pyTruthy : Val → Bool
  | .s v => v ≠ ""
  | .b v => v
  | .num n => n ≠ 0
  | .dt _ => true
  | .isoDT _ => true
  | .vdict l => !l.isEmpty
  | .vnone => false

/-- `datetime.fromtimestamp(n, timezone.utc)` for a numeric field, with
instants measured in microseconds and timestamps in seconds. -/
def fromTimestamp (n : Int) : Int := n * 1000000

/-- The `created_at`/`updated_at` normalisation of `User.from_dict`: numeric
timestamps and ISO strings become `datetime`s, unparsable values stay. -/
def parseDateVal : Val → Val
  | .num n => .dt (fromTimestamp n)
  | .isoDT t => .dt t
  | v => v

/-! ### The `User` dataclass (`models/user.py`)

Field-by-field translation; dataclass defaults become Lean defaults.
`last_name` and `role` are annotated `str` in the source but can receive
`None` at runtime (`sanitize_input(None)`, a `role` key explicitly set to
`None`), so they are `Option String` here; `created_at`/`updated_at`
hold a `Val` because `from_dict` deliberately keeps unparsable values. -/

structure User where
  email : String
  first_name : String
  last_name : Option String
  role : Option String := some "user"
  created_at : Option Val := none
  updated_at : Option Val := none
  profile_picture : Option String := none
  phone_number : Option String := none
  is_active : Bool := true
  firebase_uid : Option String := none
  onboarding_completed : Bool := false
  language : Option String := none
  location : Option Val := none
  email_notifications : Bool := true
  push_notification : Bool := true
  photo_url : Option String := none
  bio : Option String := none
  lang : Option String := none
  id : Option String := none
deriving Repr, DecidableEq

/-- The default location structure built by `__post_init__`. -/
def defaultLocation : Val :=
  .vdict [("address", .leaf (.s "")), ("city", .leaf (.s "")),
    ("state", .leaf (.s "")), ("country", .leaf (.s "")),
    ("postalCode", .leaf (.s "")),
    ("coordinates", .d [("latitude", .num 0), ("longitude", .num 0)])]

/-- `User.__post_init__`, with `now` the current UTC instant. -/
def postInit (now : Int) (u : User) : User :=
  let u := if u.created_at = none then { u with created_at := some (.dt now) } else u
  let u := if u.updated_at = none then { u with updated_at := some (.dt now) } else u
  let u := if u.location = none then { u with location := some defaultLocation } else u
  if (u.firebase_uid.getD "") ≠ "" ∧ (u.id.getD "") = "" then
    { u with id := u.firebase_uid }
  else u

/-- The `created_at`/`updated_at` entry written by `User.to_dict`: a truthy
`datetime` (`datetime`s are always truthy) is replaced by its `isoformat()`
string; any other value is left as `asdict` produced it. -/
def dateOut : Option Val → Option Val
  | some (.dt t) => some (.isoDT t)
  | some v => some v
  | none => none

/-- `User.to_dict`: `asdict` in field declaration order, dates serialized,
then every `None`-valued key removed. -/
def User.to_dict (u : User) : Doc :=
  (([("email", some (.s u.email)),
     ("first_name", some (.s u.first_name)),
     ("last_name", u.last_name.map .s),
     ("role", u.role.map .s),
     ("created_at", dateOut u.created_at),
     ("updated_at", dateOut u.updated_at),
     ("profile_picture", u.profile_picture.map .s),
     ("phone_number", u.phone_number.map .s),
     ("is_active", some (.b u.is_active)),
     ("firebase_uid", u.firebase_uid.map .s),
     ("onboarding_completed", some (.b u.onboarding_completed)),
     ("language", u.language.map .s),
     ("location", u.location),
     ("email_notifications", some (.b u.email_notifications)),
     ("push_notification", some (.b u.push_notification)),
     ("photo_url", u.photo_url.map .s),
     ("bio", u.bio.map .s),
     ("lang", u.lang.map .s),
     ("id", u.id.map .s)] : List (String × Option Val)).filterMap
    (fun kv => kv.2.map (fun v => (kv.1, v))))

/-- Reading of an optional string field by the `User` constructor: a present
string stays, a present `None` is `None`, a missing key takes the default.
Non-string values do not occur in these fields in documents produced by
`to_dict`. -/
def optStrField (data : Doc) (k : String) (dflt : Option String) : Option String :=
  match data.lookup k with
  | some (.s v) => some v
  | some .vnone => none
  | some _ => dflt
  | none => dflt

/-- Reading of a boolean field with a dataclass default. -/
def boolField (data : Doc) (k : String) (dflt : Bool) : Bool :=
  match data.lookup k with
  | some (.b v) => v
  | _ => dflt

/-- `User.from_dict(data, doc_id)`: normalise the date fields, default the
required fields when missing or falsy, construct (running
`__post_init__`), then override `id` with a truthy `doc_id`. -/
def User.from_dict (data : Doc) (doc_id : Option String) (now : Int) : User :=
  let email := match data.lookup "email" with
    | some (.s v) => if v = "" then "default@example.com" else v
    | _ => "default@example.com"
  let firstName := match data.lookup "first_name" with
    | some (.s v) => if v = "" then "Default" else v
    | _ => "Default"
  let lastName : Option String := match data.lookup "last_name" with
    | some (.s v) => if v = "" then some "" else some v
    | _ => some ""
  let u : User := {
    email := email
    first_name := firstName
    last_name := lastName
    role := optStrField data "role" (some "user")
    created_at := (data.lookup "created_at").map parseDateVal
    updated_at := (data.lookup "updated_at").map parseDateVal
    profile_picture := optStrField data "profile_picture" none
    phone_number := optStrField data "phone_number" none
    is_active := boolField data "is_active" true
    firebase_uid := optStrField data "firebase_uid" none
    onboarding_completed := boolField data "onboarding_completed" false
    language := optStrField data "language" none
    location := match data.lookup "location" with
      | some .vnone => none
      | some v => some v
      | none => none
    email_notifications := boolField data "email_notifications" true
    push_notification := boolField data "push_notification" true
    photo_url := optStrField data "photo_url" none
    bio := optStrField data "bio" none
    lang := optStrField data "lang" none
    id := optStrField data "id" none }
  let u := postInit now u
  if (doc_id.getD "") ≠ "" then { u with id := doc_id } else u

/-! ### `models/password_reset.py` and its Firestore repository

The password-reset collection is modelled at record level: the repository
stores and returns `PasswordReset` values (its `create`/`get_by_token`
round-trip through `to_dict`/`from_dict` is lossless for records whose
fields are genuine datetimes, which is what the service writes), with the
Firestore document id kept in the record's `id` field as `from_dict` does.
Instants are in seconds; `timedelta(hours=1)` is 3600. -/

structure PasswordReset where
  email : String
  user_id : String
  token : String
  expires_at : Int
  created_at : Int
  used : Bool := false
  used_at : Option Int := none
  id : Option String := none
deriving Repr, DecidableEq

/-- `PasswordReset.is_expired`: `datetime.now(timezone.utc) > self.expires_at`. -/
def PasswordReset.is_expired (r : PasswordReset) (now : Int) : Bool :=
  decide (now > r.expires_at)

/-- The password-reset collection, plus the log of successful
`auth.update_user(uid, password=pw)` calls made against the identity
provider (the outward effect the claims are about). -/
structure RPState where
  resets : List PasswordReset
  authUpdates : List (String × String)
deriving Repr, DecidableEq

/-- `FirestorePasswordResetRepository.create`: assign a fresh document id
and store the record. -/
def prRepoCreate (pr : PasswordReset) (freshId : String)
    (l : List PasswordReset) : PasswordReset × List PasswordReset :=
  let pr2 := { pr with id := some freshId }
  (pr2, l ++ [pr2])

/-- `FirestorePasswordResetRepository.get_by_token`: first record whose
`token` field equals the argument (`limit(1)`). -/
def prRepoGetByToken (token : String) (l : List PasswordReset) :
    Option PasswordReset :=
  l.find? (fun r => r.token == token)

/-- `FirestorePasswordResetRepository.get_active_reset_by_email`: a record
with this email, `used == False` and `expires_at > now`, if any (the
service only tests whether one exists, so the `order_by created_at`
ordering of the underlying query is immaterial). -/
def prRepoGetActiveByEmail (email : String) (now : Int)
    (l : List PasswordReset) : Option PasswordReset :=
  (l.filter (fun r => r.email == email && !r.used && decide (r.expires_at > now))).head?

/-- `FirestorePasswordResetRepository.mark_as_used`: set `used`/`used_at` on
the document with the given id (Firestore ids are unique per collection). -/
def prRepoMarkAsUsed (resetId : String) (now : Int)
    (l : List PasswordReset) : List PasswordReset :=
  l.map (fun r => if r.id == some resetId then
    { r with used := true, used_at := some now } else r)

/-- `FirestorePasswordResetRepository.delete`: remove the document with the
given id. -/
def prRepoDelete (resetId : String) (l : List PasswordReset) :
    List PasswordReset :=
  l.filter (fun r => !(r.id == some resetId))

/-! ### `PasswordService` (`services/password_service.py`)

`token_expiry_hours = 1`, `min_password_length = 8`.  The identity
provider, the token generator and the mail sender are oracles:
`authUser` is the result of `auth.get_user_by_email`, `authOk` tells
whether `auth.update_user` succeeds, `token`/`freshId` are the generated
token and Firestore document id, `emailOk` whether the reset mail sends. -/

/-- Result of `auth.get_user_by_email` when the user exists. -/
structure AuthUser where
  uid : String
  display_name : Option String
deriving Repr, DecidableEq

/-- `PasswordService.request_password_reset`. -/
def request_password_reset (now : Int) (authUser : Option AuthUser)
    (token freshId : String) (emailOk : Bool) (email reset_base_url : String)
    (st : RPState) : (Bool × String) × RPState :=
  let _ := reset_base_url
  match authUser with
  | none =>
    ((true, "If an account exists with this email, a reset link has been sent."), st)
  | some user =>
    match prRepoGetActiveByEmail email now st.resets with
    | some _ =>
      ((true, "If an account exists with this email, a reset link has been sent."), st)
    | none =>
      let pr : PasswordReset := {
        email := email
        user_id := user.uid
        token := token
        expires_at := now + 3600
        created_at := now }
      let (pr2, resets2) := prRepoCreate pr freshId st.resets
      if emailOk then
        ((true, "If an account exists with this email, a reset link has been sent."),
          { st with resets := resets2 })
      else
        let resets3 := if (pr2.id.getD "") ≠ "" then
            prRepoDelete (pr2.id.getD "") resets2
          else resets2
        ((false, "Failed to send reset email. Please try again."),
          { st with resets := resets3 })

/-- `PasswordService.reset_password`. -/
def reset_password (now : Int) (authOk : Bool) (token new_password : String)
    (st : RPState) : (Bool × String) × RPState :=
  if new_password.length < 8 then
    ((false, "Password must be at least 8 characters long."), st)
  else
    match prRepoGetByToken token st.resets with
    | none => ((false, "Invalid or expired reset token."), st)
    | some pr =>
      if pr.is_expired now then
        ((false, "Reset token has expired. Please request a new one."), st)
      else if pr.used then
        ((false, "This reset token has already been used."), st)
      else if !authOk then
        ((false, "Failed to update password. Please try again."), st)
      else
        let st2 := { st with authUpdates := st.authUpdates ++ [(pr.user_id, new_password)] }
        let st3 := if (pr.id.getD "") ≠ "" then
            { st2 with resets := prRepoMarkAsUsed (pr.id.getD "") now st2.resets }
          else st2
        ((true, "Password has been reset successfully."), st3)

/-- `PasswordService.change_password`; `userExists` is the outcome of
`auth.get_user(user_id)`, `authOk` that of `auth.update_user`.  The second
component records whether the identity provider's credential was updated. -/
def change_password (user_id current_password new_password : String)
    (userExists authOk : Bool) : (Bool × String) × Bool :=
  let _ := user_id
  if new_password.length < 8 then
    ((false, "Password must be at least 8 characters long."), false)
  else if current_password == new_password then
    ((false, "New password must be different from current password."), false)
  else if !userExists then
    ((false, "User not found."), false)
  else if !authOk then
    ((false, "Failed to update password. Please try again."), false)
  else
    ((true, "Password changed successfully."), true)

/-! ### The `change_password` endpoint (`api/v1/password.py`)

The handler re-validates presence and full strength of the new password
before delegating to the service; responses are reduced to
`(status, message, credentialUpdated)`, with `create_response` assigning
status 200 on the success path and 400 on every failure path shown. -/

structure EndpointResult where
  status : Nat
  message : String
  credentialUpdated : Bool
deriving Repr, DecidableEq

/-- The body of the `change_password` handler after authentication:
`current_password`/`new_password` are the `.get` results from the JSON
body (`none` when absent or `null`). -/
def change_password_endpoint (user_id : String)
    (current_password new_password : Option String)
    (userExists authOk : Bool) : EndpointResult :=
  if (current_password.getD "") = "" then
    { status := 400, message := "Current password is required", credentialUpdated := false }
  else if (new_password.getD "") = "" then
    { status := 400, message := "New password is required", credentialUpdated := false }
  else
    let np := new_password.getD ""
    let vps := validate_password_strength np
    if !vps.1 then
      { status := 400, message := vps.2.getD "", credentialUpdated := false }
    else
      let res := change_password user_id (current_password.getD "") np userExists authOk
      if res.1.1 then
        { status := 200, message := res.1.2, credentialUpdated := res.2 }
      else
        { status := 400, message := res.1.2, credentialUpdated := res.2 }

/-! ### The users collection (`repositories/firestore/user_repo.py`)

The collection maps document ids (= firebase uids) to documents. -/

/-- The users collection. -/
abbrev UserStore := List (String × Doc)

/-- `doc_ref.set`: overwrite the document at a key, or add it. -/
def storeSet (st : UserStore) (k : String) (d : Doc) : UserStore :=
  if st.any (fun kv => kv.1 == k) then
    st.map (fun kv => if kv.1 == k then (k, d) else kv)
  else st ++ [(k, d)]

/-- `FirestoreUserRepository.get_by_email`: exact match on the lowercased
email, then on the literal input casing, then a bounded (1000-document)
scan comparing lowercased stored emails.  The scan's
`user_data["email"].lower()` presupposes a string; documents written by
this system always store string emails. -/
def userRepoGetByEmail (st : UserStore) (email : String) (now : Int) :
    Option User :=
  let lowerEmail := if email ≠ "" then pyLower email else email
  match st.find? (fun kv => kv.2.lookup "email" == some (Val.s lowerEmail)) with
  | some kv => some (User.from_dict kv.2 (some kv.1) now)
  | none =>
    match st.find? (fun kv => kv.2.lookup "email" == some (Val.s email)) with
    | some kv => some (User.from_dict kv.2 (some kv.1) now)
    | none =>
      match (st.take 1000).find? (fun kv =>
          match kv.2.lookup "email" with
          | some (.s e) => e ≠ "" && pyLower e == lowerEmail
          | _ => false) with
      | some kv => some (User.from_dict kv.2 (some kv.1) now)
      | none => none

/-- A Python exception relevant to these flows. -/
inductive PyErr where
  | valueError (msg : String)
  | keyError (key : String)
deriving Repr, DecidableEq

/-- `UserService.get_user_by_email`: re-validates the email format, then
delegates to the repository. -/
def serviceGetUserByEmail (st : UserStore) (email : String) (now : Int) :
    Except PyErr (Option User) :=
  if !validate_email email then .error (.valueError "Invalid email format")
  else .ok (userRepoGetByEmail st email now)

/-- `FirestoreUserRepository.create`: lowercase the email, serialize without
the `id` key, require a firebase uid, store under it, and return the user
with `id` set to the uid. -/
def userRepoCreate (u : User) (st : UserStore) : Except PyErr (User × UserStore) :=
  let u2 := if u.email ≠ "" then { u with email := pyLower u.email } else u
  let d := (User.to_dict u2).filter (fun kv => !(kv.1 == "id"))
  if (u2.firebase_uid.getD "") = "" then
    .error (.valueError "firebase_uid is required to create a user")
  else
    .ok ({ u2 with id := u2.firebase_uid }, storeSet st (u2.firebase_uid.getD "") d)

/-! ### `UserService.create_user` (`services/user_service.py`)

A request payload is an association list of JSON string-or-null values
(`none` in the value position is JSON `null`/Python `None`).  The blob
store and the identity provider are oracles in `CreateEnv`: `upload` is
the storage upload outcome (url or error detail), `authCreate` the
`create_firebase_user` outcome. -/

/-- A request payload. -/
abbrev Payload := List (String × Option String)

/-- Failures of `firebase_admin.auth.create_user`. -/
inductive AuthCreateErr where
  | emailExists
  | other (msg : String)
deriving Repr, DecidableEq

/-- External-collaborator outcomes for one `create_user` run. -/
structure CreateEnv where
  upload : Except String String
  authCreate : Except AuthCreateErr String
deriving Repr

/-- One field check of `validate_required_fields`: present, not `None`,
not `""`. -/
def fieldTruthy (p : Payload) (k : String) : Bool :=
  match p.lookup k with
  | some (some s) => s ≠ ""
  | _ => false

/-- The `missing_fields` list of `validate_required_fields`. -/
def requiredMissing (createAuthUser : Bool) (p : Payload) : List String :=
  (["email", "first_name"] ++ (if createAuthUser then ["password"] else [])).filter
    (fun k => !fieldTruthy p k)

/-- Python `data[k]`: `KeyError` when the key is absent. -/
def pyGetItem (p : Payload) (k : String) : Except PyErr (Option String) :=
  match p.lookup k with
  | some v => .ok v
  | none => .error (.keyError k)

/-- Python `data.get(k)`: `None` when absent. -/
def pyGet (p : Payload) (k : String) : Option String :=
  (p.lookup k).join

/-- An f-string interpolation of a possibly-`None` value. -/
def pyStrOfOpt : Option String → String
  | some s => s
  | none => "None"

/-- The name normalisation of `create_user`: sanitize, then `title()` a
fully-uppercase name. -/
def normName (v : Option String) : Option String :=
  match sanitize_input v with
  | some s => if s ≠ "" && pyIsUpper s then some (pyTitle s) else some s
  | none => none

/-- `UserService.create_user`, body inside the `try` (the handler logs and
re-raises, leaving the outcome unchanged).  Returns the created user and
the updated collection, or the exception. -/
def createUserCore (now : Int) (env : CreateEnv) (createAuthUser : Bool)
    (p : Payload) (st : UserStore) : Except PyErr (User × UserStore) :=
  let missing := requiredMissing createAuthUser p
  if !missing.isEmpty then
    .error (.valueError ("Missing required fields: " ++ String.intercalate ", " missing))
  else
    match p.lookup "email" with
    | none => .error (.keyError "email")
    | some emailV =>
      let emailStr := emailV.getD ""
      if !validate_email emailStr then .error (.valueError "Invalid email format")
      else
        let email := pyLower emailStr
        let phone := pyGet p "phone_number"
        if (match phone with
            | some s => s ≠ "" && !validate_phone_number s
            | none => false) then
          .error (.valueError "Invalid phone number format")
        else
          match serviceGetUserByEmail st email now with
          | .error e => .error e
          | .ok (some _) =>
            .error (.valueError ("User with email " ++ email ++ " already exists"))
          | .ok none =>
            match p.lookup "first_name" with
            | none => .error (.keyError "first_name")
            | some fnV =>
              let fn1 := normName fnV
              match p.lookup "last_name" with
              | none => .error (.keyError "last_name")
              | some lnV =>
                let ln1 := normName lnV
                let picStep : Except PyErr (Option String) :=
                  match p.lookup "profile_picture" with
                  | none => .ok none
                  | some pv =>
                    if (pv.getD "") ≠ "" &&
                        !((pv.getD "").startsWith "http://" ||
                          (pv.getD "").startsWith "https://") then
                      match env.upload with
                      | .ok url => .ok (some url)
                      | .error err => .error (.valueError
                          ("Failed to upload profile picture: Failed to upload profile picture: "
                            ++ err))
                    else .ok (sanitize_input pv)
                match picStep with
                | .error e => .error e
                | .ok picVal =>
                  let fuid0 := pyGet p "firebase_uid"
                  let fuidStep : Except PyErr String :=
                    if (fuid0.getD "") = "" then
                      if createAuthUser then
                        match p.lookup "password" with
                        | none => .error (.keyError "password")
                        | some pwV =>
                          let pw := pwV.getD ""
                          let _displayName := pyStrOfOpt fn1 ++ " " ++ pyStrOfOpt ln1
                          let vp := validate_password pw
                          if !vp.valid then
                            .error (.valueError (String.intercalate "\n" vp.errors))
                          else
                            match env.authCreate with
                            | .ok uid => .ok uid
                            | .error .emailExists => .error (.valueError
                                ("User with email " ++ pyLower email ++ " already exists"))
                            | .error (.other msg) => .error (.valueError msg)
                      else .error (.valueError "firebase_uid is required to create a user")
                    else .ok (fuid0.getD "")
                  match fuidStep with
                  | .error e => .error e
                  | .ok fuid =>
                    let user0 : User := postInit now {
                      email := email
                      first_name := (fn1.getD "")
                      last_name := ln1
                      role := (match p.lookup "role" with
                        | none => some "user"
                        | some v => v)
                      profile_picture := picVal
                      phone_number := phone
                      created_at := some (.dt now)
                      updated_at := some (.dt now)
                      firebase_uid := some fuid }
                    userRepoCreate user0 st

/-- `create_user` as observed by the caller: the collection is unchanged on
any exception (the only write is the final `doc_ref.set`). -/
def createUser (now : Int) (env : CreateEnv) (createAuthUser : Bool)
    (p : Payload) (st : UserStore) : Except PyErr User × UserStore :=
  match createUserCore now env createAuthUser p st with
  | .ok (u, st2) => (.ok u, st2)
  | .error e => (.error e, st)

/-! ### Shared helper lemmas -/

theorem pyLowerChar_idem (c : Char) : pyLowerChar (pyLowerChar c) = pyLowerChar c := by
  have h : ¬ (65 ≤ (pyLowerChar c).toNat ∧ (pyLowerChar c).toNat ≤ 90) := by
    rw [pyLowerChar_toNat]
    split_ifs <;> omega
  calc pyLowerChar (pyLowerChar c)
      = if 65 ≤ (pyLowerChar c).toNat ∧ (pyLowerChar c).toNat ≤ 90 then
          Char.ofNat ((pyLowerChar c).toNat + 32) else pyLowerChar c := rfl
    _ = pyLowerChar c := if_neg h

theorem pyLower_idem (s : String) : pyLower (pyLower s) = pyLower s := by
  show String.mk ((pyLower s).data.map pyLowerChar) = pyLower s
  rw [pyLower_data, List.map_map]
  have h : pyLowerChar ∘ pyLowerChar = pyLowerChar := funext pyLowerChar_idem
  rw [h]
  rfl

/-- Marking a reset used changes only `used`/`used_at`, so a token lookup
still finds the same (now marked) first match. -/
theorem prRepoGetByToken_markAsUsed (tok rid : String) (now : Int)
    (l : List PasswordReset) :
    prRepoGetByToken tok (prRepoMarkAsUsed rid now l) =
      (prRepoGetByToken tok l).map
        (fun r => if r.id == some rid then
          { r with used := true, used_at := some now } else r) := by
  unfold prRepoGetByToken prRepoMarkAsUsed
  rw [List.find?_map]
  have hpf : ((fun r : PasswordReset => r.token == tok) ∘ fun r =>
      if (r.id == some rid) = true then
        { r with used := true, used_at := some now } else r)
      = (fun r : PasswordReset => r.token == tok) := by
    funext x
    simp only [Function.comp]
    split <;> rfl
  rw [hpf]

/-! ### The claims -/

/-- C1: once a `create_user` call has committed its user document (stored
with lowercase email), a second `create_user` call whose email differs only
in letter case — whatever casing either call used — fails with the
duplicate-email `ValueError` and leaves the users collection unchanged. -/
theorem c1_duplicate_email_rejected (now2 : Int) (env2 : CreateEnv) (cAuth2 : Bool)
    (p2 : Payload) (st : UserStore) (e1 e2 : String)
    (hvalid1 : validate_email e1 = true)
    (hcase : pyLower e2 = pyLower e1)
    (hmem : ∃ kv ∈ st, kv.2.lookup "email" = some (Val.s (pyLower e1)))
    (hp2email : p2.lookup "email" = some (some e2))
    (hp2fn : fieldTruthy p2 "first_name" = true)
    (hp2pw : cAuth2 = true → fieldTruthy p2 "password" = true)
    (hp2ph : (match p2.lookup "phone_number" with
      | some (some s) => s = "" ∨ validate_phone_number s = true
      | _ => True)) :
    createUser now2 env2 cAuth2 p2 st =
      (.error (.valueError ("User with email " ++ pyLower e2 ++ " already exists")), st) := by
  have hv2 : validate_email e2 = true := by
    rw [← validate_email_lower e2, hcase, validate_email_lower e1]
    exact hvalid1
  have he2 : e2 ≠ "" := by
    intro h
    subst h
    rw [validate_email, if_pos rfl] at hv2
    exact Bool.false_ne_true hv2
  have hft : fieldTruthy p2 "email" = true := by
    simp [fieldTruthy, hp2email, he2]
  have hmiss : requiredMissing cAuth2 p2 = [] := by
    cases cAuth2 with
    | false => simp [requiredMissing, hft, hp2fn]
    | true => simp [requiredMissing, hft, hp2fn, hp2pw rfl]
  have hlowne : pyLower e2 ≠ "" := fun h => he2 ((pyLower_eq_empty_iff e2).mp h)
  have hvlow : validate_email (pyLower e2) = true := by
    rw [validate_email_lower]
    exact hv2
  have hlow2 : pyLower (pyLower e2) = pyLower e2 := pyLower_idem e2
  obtain ⟨kv0, hkv0, hkv0e⟩ := hmem
  have hfindsome : (st.find? (fun kv =>
      kv.2.lookup "email" == some (Val.s (pyLower (pyLower e2))))).isSome := by
    rw [List.find?_isSome]
    exact ⟨kv0, hkv0, by rw [hlow2, hcase, hkv0e]; simp⟩
  obtain ⟨kvf, hkvf⟩ := Option.isSome_iff_exists.mp hfindsome
  have hrepo : userRepoGetByEmail st (pyLower e2) now2 =
      some (User.from_dict kvf.2 (some kvf.1) now2) := by
    unfold userRepoGetByEmail
    simp only [if_pos hlowne]
    rw [hkvf]
  have hservice : serviceGetUserByEmail st (pyLower e2) now2 =
      .ok (some (User.from_dict kvf.2 (some kvf.1) now2)) := by
    unfold serviceGetUserByEmail
    rw [hvlow]
    simp only [Bool.not_true, Bool.false_eq_true, if_false]
    rw [hrepo]
  have hguard : (match pyGet p2 "phone_number" with
      | some s => decide (s ≠ "") && !validate_phone_number s
      | none => false) = false := by
    rcases hphl : p2.lookup "phone_number" with _ | v
    · simp [pyGet, hphl]
    · rw [hphl] at hp2ph
      cases v with
      | none => simp [pyGet, hphl]
      | some s =>
        rcases hp2ph with hs | hs
        · subst hs
          simp [pyGet, hphl]
        · simp [pyGet, hphl, hs]
  unfold createUser createUserCore
  simp only [hmiss, List.isEmpty_nil, Bool.not_true, Bool.false_eq_true, if_false,
    hp2email, Option.getD_some, hv2, hguard]
  rw [hservice]

/-- C1 witness: a committed `a@b.com` user makes a later `a@B.COM`
creation fail with the duplicate error and an unchanged store. -/
theorem c1_witness :
    createUser 7 ⟨.ok "http://f/x.jpg", .ok "uid9"⟩ true
      [("email", some "a@B.COM"), ("first_name", some "Jo"), ("password", some "Str0ng!Pw")]
      [("uid1", [("email", Val.s "a@b.com")])] =
      (.error (.valueError ("User with email " ++ pyLower "a@B.COM" ++ " already exists")),
       [("uid1", [("email", Val.s "a@b.com")])]) :=
  c1_duplicate_email_rejected 7 ⟨.ok "http://f/x.jpg", .ok "uid9"⟩ true
    [("email", some "a@B.COM"), ("first_name", some "Jo"), ("password", some "Str0ng!Pw")]
    [("uid1", [("email", Val.s "a@b.com")])] "A@B.com" "a@B.COM"
    (by decide) (by decide)
    ⟨("uid1", [("email", Val.s "a@b.com")]), by decide, by decide⟩
    (by decide) (by decide) (fun _ => by decide) (by trivial)

/-- C2 counterexample: a token consumed at time 3 whose record expires at
time 5 makes a second `reset_password` call at time 10 fail with the
*expired* message, not the distinct *already been used* message the claim
promises for every later call. -/
theorem c2_counterexample_used_token_reports_expired :
    (reset_password 3 true "tok123" "Abcdefg1"
        ⟨[⟨"e@x.com", "u1", "tok123", 5, 0, false, none, some "id1"⟩], []⟩).1
      = (true, "Password has been reset successfully.") ∧
    (reset_password 10 true "tok123" "Abcdefg1"
        (reset_password 3 true "tok123" "Abcdefg1"
          ⟨[⟨"e@x.com", "u1", "tok123", 5, 0, false, none, some "id1"⟩], []⟩).2).1
      = (false, "Reset token has expired. Please request a new one.") ∧
    "Reset token has expired. Please request a new one." ≠
      "This reset token has already been used." := by
  refine ⟨by decide, by decide, by decide⟩

/-- C2 (amended): after a successful `reset_password` consumes a token, the
record is `used = true` with `used_at` set; no later call with that token
ever succeeds or updates the credential again, and a later call made while
the token is unexpired (and passing the length precheck) fails with the
distinct already-used message, different from the not-found and expired
messages. -/
theorem c2_amended_single_use (now1 : Int) (tok pwd1 : String) (st : RPState)
    (r : PasswordReset) (rid : String)
    (hfind : prRepoGetByToken tok st.resets = some r)
    (hused : r.used = false)
    (hexp : ¬ now1 > r.expires_at)
    (hlen : 8 ≤ pwd1.length)
    (hid : r.id = some rid) (hridne : rid ≠ "") :
    (reset_password now1 true tok pwd1 st).1 =
      (true, "Password has been reset successfully.") ∧
    prRepoGetByToken tok (reset_password now1 true tok pwd1 st).2.resets =
      some { r with used := true, used_at := some now1 } ∧
    (∀ (now2 : Int) (authOk2 : Bool) (pwd2 : String),
      ((reset_password now2 authOk2 tok pwd2
          (reset_password now1 true tok pwd1 st).2).1.1 = false ∧
       (reset_password now2 authOk2 tok pwd2
          (reset_password now1 true tok pwd1 st).2).2 =
         (reset_password now1 true tok pwd1 st).2)) ∧
    (∀ (now2 : Int) (authOk2 : Bool) (pwd2 : String),
      8 ≤ pwd2.length → ¬ now2 > r.expires_at →
      (reset_password now2 authOk2 tok pwd2
          (reset_password now1 true tok pwd1 st).2).1 =
        (false, "This reset token has already been used.")) ∧
    ("This reset token has already been used." ≠ "Invalid or expired reset token." ∧
     "This reset token has already been used." ≠
       "Reset token has expired. Please request a new one.") := by
  have hrun : reset_password now1 true tok pwd1 st =
      ((true, "Password has been reset successfully."),
        { st with
          authUpdates := st.authUpdates ++ [(r.user_id, pwd1)]
          resets := prRepoMarkAsUsed rid now1 st.resets }) := by
    unfold reset_password
    rw [if_neg (by omega)]
    rw [hfind]
    simp only [PasswordReset.is_expired, hused, hid]
    rw [if_neg (by simp [hexp])]
    simp [hridne]
  have hfind2 : prRepoGetByToken tok (prRepoMarkAsUsed rid now1 st.resets) =
      some { r with used := true, used_at := some now1 } := by
    rw [prRepoGetByToken_markAsUsed, hfind]
    simp [hid]
  refine ⟨by rw [hrun], by rw [hrun]; exact hfind2, ?_, ?_, by decide, by decide⟩
  · intro now2 authOk2 pwd2
    rw [hrun]
    simp only
    unfold reset_password
    by_cases hl2 : pwd2.length < 8
    · rw [if_pos hl2]
      exact ⟨rfl, rfl⟩
    · rw [if_neg hl2]
      rw [hfind2]
      by_cases he2 : now2 > PasswordReset.expires_at
          { r with used := true, used_at := some now1 }
      · simp [PasswordReset.is_expired, he2]
      · simp [PasswordReset.is_expired, he2]
  · intro now2 authOk2 pwd2 hlen2 hexp2
    rw [hrun]
    simp only
    unfold reset_password
    rw [if_neg (by omega)]
    rw [hfind2]
    simp [PasswordReset.is_expired, hexp2]

/-- C2 witness: consuming `tok123` at time 3 succeeds; a retry at time 4
(before the expiry at 5) fails with the already-used message. -/
theorem c2_witness :
    (reset_password 3 true "tok123" "Abcdefg1"
        ⟨[⟨"e@x.com", "u1", "tok123", 5, 0, false, none, some "id1"⟩], []⟩).1
      = (true, "Password has been reset successfully.") ∧
    (reset_password 4 true "tok123" "Abcdefg1"
        (reset_password 3 true "tok123" "Abcdefg1"
          ⟨[⟨"e@x.com", "u1", "tok123", 5, 0, false, none, some "id1"⟩], []⟩).2).1
      = (false, "This reset token has already been used.") :=
  have h := c2_amended_single_use 3 "tok123" "Abcdefg1"
    ⟨[⟨"e@x.com", "u1", "tok123", 5, 0, false, none, some "id1"⟩], []⟩
    ⟨"e@x.com", "u1", "tok123", 5, 0, false, none, some "id1"⟩ "id1"
    (by decide) (by decide) (by decide) (by decide) (by decide) (by decide)
  ⟨h.1, h.2.2.2.1 4 true "Abcdefg1" (by decide) (by decide)⟩

/-- C3: when the current time is strictly past `expires_at`,
`reset_password` with any password of length at least 8 fails with the
expired message — whatever the `used` flag — and changes neither the
reset collection nor the identity provider (the whole state is returned
unchanged). -/
theorem c3_expired_token_rejected (now : Int) (authOk : Bool) (tok pwd : String)
    (st : RPState) (r : PasswordReset)
    (hfind : prRepoGetByToken tok st.resets = some r)
    (hexp : now > r.expires_at)
    (hlen : 8 ≤ pwd.length) :
    reset_password now authOk tok pwd st =
      ((false, "Reset token has expired. Please request a new one."), st) := by
  unfold reset_password
  rw [if_neg (by omega)]
  rw [hfind]
  simp [PasswordReset.is_expired, hexp]

/-- C3 witness: an unused record expired at time 5, queried at time 10. -/
theorem c3_witness :
    reset_password 10 true "tok123" "Abcdefg1"
        ⟨[⟨"e@x.com", "u1", "tok123", 5, 0, false, none, some "id1"⟩], []⟩
      = ((false, "Reset token has expired. Please request a new one."),
         ⟨[⟨"e@x.com", "u1", "tok123", 5, 0, false, none, some "id1"⟩], []⟩) :=
  c3_expired_token_rejected 10 true "tok123" "Abcdefg1" _
    ⟨"e@x.com", "u1", "tok123", 5, 0, false, none, some "id1"⟩
    (by decide) (by decide) (by decide)

/-- C4: on an active record, a failed identity-provider update makes
`reset_password` return the failure message with the state unchanged (the
record stays unused and unmarked), and a retry with the same token — while
the record is unexpired — succeeds, updates the credential, and only then
marks the record used. -/
theorem c4_auth_failure_leaves_token_consumable
    (now1 : Int) (tok pwd1 : String) (st : RPState) (r : PasswordReset) (rid : String)
    (hfind : prRepoGetByToken tok st.resets = some r)
    (hused : r.used = false)
    (hexp : ¬ now1 > r.expires_at)
    (hlen : 8 ≤ pwd1.length)
    (hid : r.id = some rid) (hridne : rid ≠ "") :
    reset_password now1 false tok pwd1 st =
      ((false, "Failed to update password. Please try again."), st) ∧
    (∀ (now2 : Int) (pwd2 : String), 8 ≤ pwd2.length → ¬ now2 > r.expires_at →
      (reset_password now2 true tok pwd2 st).1 =
        (true, "Password has been reset successfully.") ∧
      (reset_password now2 true tok pwd2 st).2.authUpdates =
        st.authUpdates ++ [(r.user_id, pwd2)] ∧
      prRepoGetByToken tok (reset_password now2 true tok pwd2 st).2.resets =
        some { r with used := true, used_at := some now2 }) := by
  constructor
  · unfold reset_password
    rw [if_neg (by omega)]
    rw [hfind]
    simp [PasswordReset.is_expired, hexp, hused]
  · intro now2 pwd2 hlen2 hexp2
    have hrun : reset_password now2 true tok pwd2 st =
        ((true, "Password has been reset successfully."),
          { st with
            authUpdates := st.authUpdates ++ [(r.user_id, pwd2)]
            resets := prRepoMarkAsUsed rid now2 st.resets }) := by
      unfold reset_password
      rw [if_neg (by omega)]
      rw [hfind]
      simp only [PasswordReset.is_expired, hused, hid]
      rw [if_neg (by simp [hexp2])]
      simp [hridne]
    refine ⟨by rw [hrun], by rw [hrun], ?_⟩
    rw [hrun]
    simp only
    rw [prRepoGetByToken_markAsUsed, hfind]
    simp [hid]

/-- C4 witness: auth failure at time 3 leaves the state untouched; the
retry at time 4 with the same token succeeds. -/
theorem c4_witness :
    reset_password 3 false "tok123" "Abcdefg1"
        ⟨[⟨"e@x.com", "u1", "tok123", 5, 0, false, none, some "id1"⟩], []⟩
      = ((false, "Failed to update password. Please try again."),
         ⟨[⟨"e@x.com", "u1", "tok123", 5, 0, false, none, some "id1"⟩], []⟩) ∧
    (reset_password 4 true "tok123" "Abcdefg1"
        ⟨[⟨"e@x.com", "u1", "tok123", 5, 0, false, none, some "id1"⟩], []⟩).1
      = (true, "Password has been reset successfully.") :=
  have h := c4_auth_failure_leaves_token_consumable 3 "tok123" "Abcdefg1"
    ⟨[⟨"e@x.com", "u1", "tok123", 5, 0, false, none, some "id1"⟩], []⟩
    ⟨"e@x.com", "u1", "tok123", 5, 0, false, none, some "id1"⟩ "id1"
    (by decide) (by decide) (by decide) (by decide) (by decide) (by decide)
  ⟨h.1, (h.2 4 "Abcdefg1" (by decide) (by decide)).1⟩

/-- C5: `validate_password_strength` accepts exactly the passwords of
length at least 8 containing an uppercase letter, a lowercase letter, a
digit and a `string.punctuation` character; every returned error message
names a class the password actually lacks, and a message is returned
exactly when the password is rejected. -/
theorem c5_strength_validator_characterisation (p : String) :
    ((validate_password_strength p).1 = true ↔
      (8 ≤ p.length ∧ p.data.any isUpperA = true ∧ p.data.any isLowerA = true ∧
       p.data.any isDigitA = true ∧ p.data.any isPunctA = true)) ∧
    (∀ msg, (validate_password_strength p).2 = some msg →
      ((msg = "Password must be at least 8 characters long." ∧ p.length < 8) ∨
       (msg = "Password must contain at least one uppercase letter." ∧
         p.data.any isUpperA = false) ∨
       (msg = "Password must contain at least one lowercase letter." ∧
         p.data.any isLowerA = false) ∨
       (msg = "Password must contain at least one number." ∧
         p.data.any isDigitA = false) ∨
       (msg = "Password must contain at least one special character." ∧
         p.data.any isPunctA = false))) ∧
    ((validate_password_strength p).1 = false ↔
      (validate_password_strength p).2.isSome) := by
  unfold validate_password_strength
  split_ifs with h1 h2 h3 h4 h5 <;> simp_all

/-- C5 witness: `Abcdef1!` carries all four classes and is accepted. -/
theorem c5_witness :
    (validate_password_strength "Abcdef1!").1 = true :=
  (c5_strength_validator_characterisation "Abcdef1!").1.mpr (by decide)

/-- C6: if an active (unused, unexpired) reset record exists for an email,
`request_password_reset` returns the generic success message and leaves the
state untouched; hence two sequential requests for the same registered
email — the second before the first token expires — leave exactly one
reset record for that email. -/
theorem c6_one_active_reset_per_email :
    (∀ (now : Int) (au : AuthUser) (token freshId : String) (emailOk : Bool)
        (email url : String) (st : RPState) (r : PasswordReset),
      prRepoGetActiveByEmail email now st.resets = some r →
      request_password_reset now (some au) token freshId emailOk email url st =
        ((true, "If an account exists with this email, a reset link has been sent."), st)) ∧
    (∀ (now1 now2 : Int) (au1 au2 : AuthUser) (t1 t2 fid1 fid2 : String)
        (emailOk2 : Bool) (e url1 url2 : String) (st0 : RPState),
      st0.resets.countP (fun r => r.email == e) = 0 →
      now2 < now1 + 3600 →
      ((request_password_reset now1 (some au1) t1 fid1 true e url1 st0).2.resets.countP
          (fun r => r.email == e) = 1 ∧
       request_password_reset now2 (some au2) t2 fid2 emailOk2 e url2
          (request_password_reset now1 (some au1) t1 fid1 true e url1 st0).2 =
         ((true, "If an account exists with this email, a reset link has been sent."),
          (request_password_reset now1 (some au1) t1 fid1 true e url1 st0).2))) := by
  constructor
  · intro now au token freshId emailOk email url st r hactive
    unfold request_password_reset
    rw [hactive]
  · intro now1 now2 au1 au2 t1 t2 fid1 fid2 emailOk2 e url1 url2 st0 hcount hlt
    have hmem : ∀ a ∈ st0.resets, ¬ ((a.email == e) = true) :=
      List.countP_eq_zero.mp hcount
    have hnoactive : prRepoGetActiveByEmail e now1 st0.resets = none := by
      unfold prRepoGetActiveByEmail
      have hfil : st0.resets.filter
          (fun r => r.email == e && !r.used && decide (r.expires_at > now1)) = [] := by
        rw [List.filter_eq_nil_iff]
        intro a ha
        have := hmem a ha
        simp_all
      rw [hfil]
      rfl
    have hcall1 : request_password_reset now1 (some au1) t1 fid1 true e url1 st0 =
        ((true, "If an account exists with this email, a reset link has been sent."),
          { st0 with resets := st0.resets ++
            [⟨e, au1.uid, t1, now1 + 3600, now1, false, none, some fid1⟩] }) := by
      unfold request_password_reset
      rw [hnoactive]
      rfl
    rw [hcall1]
    constructor
    · simp only [List.countP_append, hcount]
      simp [List.countP_cons]
    · have hactive2 : prRepoGetActiveByEmail e now2
          (st0.resets ++ [⟨e, au1.uid, t1, now1 + 3600, now1, false, none, some fid1⟩])
          = some ⟨e, au1.uid, t1, now1 + 3600, now1, false, none, some fid1⟩ := by
        unfold prRepoGetActiveByEmail
        rw [List.filter_append]
        have hfil : st0.resets.filter
            (fun r => r.email == e && !r.used && decide (r.expires_at > now2)) = [] := by
          rw [List.filter_eq_nil_iff]
          intro a ha
          have := hmem a ha
          simp_all
        rw [hfil]
        have hone : ([⟨e, au1.uid, t1, now1 + 3600, now1, false, none, some fid1⟩] :
            List PasswordReset).filter
            (fun r => r.email == e && !r.used && decide (r.expires_at > now2))
            = [⟨e, au1.uid, t1, now1 + 3600, now1, false, none, some fid1⟩] := by
          have h2 : (now1 + 3600 > now2) := by omega
          simp [List.filter, h2]
        rw [hone]
        rfl
      unfold request_password_reset
      rw [hactive2]

/-- C6 witness: two sequential requests for `x@y.com` at times 100 and 200
(within the hour) leave exactly one record. -/
theorem c6_witness :
    ((request_password_reset 100 (some ⟨"u9", none⟩) "T1" "fid1" true "x@y.com" "u"
        ⟨[], []⟩).2.resets.countP (fun r => r.email == "x@y.com") = 1 ∧
     request_password_reset 200 (some ⟨"u9", none⟩) "T2" "fid2" true "x@y.com" "u"
        (request_password_reset 100 (some ⟨"u9", none⟩) "T1" "fid1" true "x@y.com" "u"
          ⟨[], []⟩).2 =
       ((true, "If an account exists with this email, a reset link has been sent."),
        (request_password_reset 100 (some ⟨"u9", none⟩) "T1" "fid1" true "x@y.com" "u"
          ⟨[], []⟩).2)) :=
  c6_one_active_reset_per_email.2 100 200 ⟨"u9", none⟩ ⟨"u9", none⟩ "T1" "T2" "fid1" "fid2"
    true "x@y.com" "u" "u" ⟨[], []⟩ (by decide) (by decide)

/-- C7: evaluating `create_user` on a payload holding exactly the declared
required fields (`email`, `first_name`, `password`) raises
`KeyError('last_name')` from the unguarded `user_data["last_name"]` access,
instead of creating the user. -/
theorem c7_absent_last_name_raises_keyerror :
    createUser 0 { upload := .ok "http://f/x.jpg", authCreate := .ok "uid-1" } true
      [("email", some "a@b.com"), ("first_name", some "Jo"), ("password", some "Str0ng!Pw")]
      []
      = (.error (.keyError "last_name"), []) := by
  rfl

/-- C8: the change-password endpoint rejects with status 400 any new
password failing the full strength rules (reporting the validator's own
message), and rejects a new password string-equal to the current one with
the dedicated message; in both cases the credential is not updated. -/
theorem c8_change_password_validation (uid c n : String) (userExists authOk : Bool)
    (hc : c ≠ "") (hn : n ≠ "") :
    ((validate_password_strength n).1 = false →
      change_password_endpoint uid (some c) (some n) userExists authOk =
        { status := 400, message := (validate_password_strength n).2.getD "",
          credentialUpdated := false }) ∧
    ((validate_password_strength n).1 = true → n = c →
      change_password_endpoint uid (some c) (some n) userExists authOk =
        { status := 400, message := "New password must be different from current password.",
          credentialUpdated := false }) := by
  constructor
  · intro hbad
    unfold change_password_endpoint
    rw [if_neg (by simp [hc]), if_neg (by simp [hn])]
    simp [hbad]
  · intro hgood heq
    unfold change_password_endpoint
    rw [if_neg (by simp [hc]), if_neg (by simp [hn])]
    simp only [Option.getD_some, hgood]
    have hlen : ¬ (n.length < 8) := by
      intro hl
      unfold validate_password_strength at hgood
      rw [if_pos hl] at hgood
      simp at hgood
    unfold change_password
    rw [if_neg hlen]
    subst heq
    simp

/-- C8 witness: a classless new password is rejected with the validator's
message; a new password equal to the current one is rejected. -/
theorem c8_witness :
    (change_password_endpoint "u1" (some "OldPass1!") (some "aaaaaaaa") true true =
      { status := 400, message := "Password must contain at least one uppercase letter.",
        credentialUpdated := false }) ∧
    (change_password_endpoint "u1" (some "NewPass1!") (some "NewPass1!") true true =
      { status := 400, message := "New password must be different from current password.",
        credentialUpdated := false }) :=
  ⟨(c8_change_password_validation "u1" "OldPass1!" "aaaaaaaa" true true
      (by decide) (by decide)).1 (by decide),
   (c8_change_password_validation "u1" "NewPass1!" "NewPass1!" true true
      (by decide) (by decide)).2 (by decide) rfl⟩

/-- C9: `User.from_dict (User.to_dict u)` reproduces `u`, both for a user
with every optional field populated (with truthy email/first name, a
genuine datetime in `created_at`/`updated_at`, a non-`None` location and a
nonempty id) and for a user built with only the required fields, whose
optional fields hold the dataclass defaults set by `__post_init__`. -/
theorem c9_user_dict_roundtrip :
    (∀ (now2 : Int) (e fn ln0 r0 pp ph fu lg pu bi la i : String) (t1 t2 : Int)
        (ia ob en pn : Bool) (loc : Val),
      e ≠ "" → fn ≠ "" → loc ≠ .vnone → i ≠ "" →
      User.from_dict
        (User.to_dict ⟨e, fn, some ln0, some r0, some (.dt t1), some (.dt t2), some pp,
          some ph, ia, some fu, ob, some lg, some loc, en, pn, some pu, some bi, some la,
          some i⟩) none now2 =
        ⟨e, fn, some ln0, some r0, some (.dt t1), some (.dt t2), some pp, some ph, ia,
          some fu, ob, some lg, some loc, en, pn, some pu, some bi, some la, some i⟩) ∧
    (∀ (e fn ln : String) (now now2 : Int), e ≠ "" → fn ≠ "" →
      User.from_dict
        (User.to_dict (postInit now { email := e, first_name := fn, last_name := some ln }))
        none now2 =
        postInit now { email := e, first_name := fn, last_name := some ln }) := by
  constructor
  · intro now2 e fn ln0 r0 pp ph fu lg pu bi la i t1 t2 ia ob en pn loc he hfn hloc hi
    cases loc <;>
      simp_all [User.from_dict, User.to_dict, optStrField, boolField, postInit, dateOut,
        parseDateVal, List.lookup]
  · intro e fn ln now now2 he hfn
    by_cases hln : ln = "" <;>
      simp_all [User.from_dict, User.to_dict, optStrField, boolField, postInit, dateOut,
        parseDateVal, defaultLocation, List.lookup]

/-- C9 witness: the round trip at a fully populated user and at a minimal
user. -/
theorem c9_witness :
    (User.from_dict
      (User.to_dict ⟨"a@b.com", "Jo", some "Doe", some "admin", some (.dt 5), some (.dt 6),
        some "http://x", some "123-456-7890", false, some "fb1", true, some "en",
        some (.vdict [("city", .leaf (.s "Z"))]), false, false, some "http://y", some "hi",
        some "en", some "fb1"⟩) none 999 =
      ⟨"a@b.com", "Jo", some "Doe", some "admin", some (.dt 5), some (.dt 6),
        some "http://x", some "123-456-7890", false, some "fb1", true, some "en",
        some (.vdict [("city", .leaf (.s "Z"))]), false, false, some "http://y", some "hi",
        some "en", some "fb1"⟩) ∧
    (User.from_dict
      (User.to_dict
        (postInit 500 { email := "a@b.com", first_name := "Jo", last_name := some "Doe" }))
        none 999 =
      postInit 500 { email := "a@b.com", first_name := "Jo", last_name := some "Doe" }) :=
  ⟨c9_user_dict_roundtrip.1 999 "a@b.com" "Jo" "Doe" "admin" "http://x" "123-456-7890"
      "fb1" "en" "http://y" "hi" "en" "fb1" 5 6 false true false false
      (.vdict [("city", .leaf (.s "Z"))]) (by decide) (by decide) (by decide) (by decide),
   c9_user_dict_roundtrip.2 "a@b.com" "Jo" "Doe" 500 999 (by decide) (by decide)⟩

/-- C10: the two password validators are not equivalent: the fixed special
set of `utils/auth.py` is a strict subset of `string.punctuation`, and the
password `Abcdef1_`, whose only symbol is an underscore, is accepted by
`PasswordService.validate_password_strength` yet rejected by
`validate_password`. -/
theorem c10_two_password_validators_differ :
    (∀ c : Char, isFixedSpecial c = true → isPunctA c = true) ∧
    validate_password_strength "Abcdef1_" = (true, none) ∧
    (validate_password "Abcdef1_").valid = false := by
  refine ⟨?_, by decide, by decide⟩
  intro c h
  simp only [isFixedSpecial, fixedSpecialCodes, List.contains_eq_any_beq,
    List.any_eq_true] at h
  obtain ⟨k, hk, hbeq⟩ := h
  simp only [isPunctA, decide_eq_true_eq]
  have hck : c.toNat = k := by
    have := of_decide_eq_true hbeq
    omega
  fin_cases hk <;> omega

end FirebasePyApi
